import Mathlib

/-!
Shallow embedding of the dino-ventures wallet service ledger core
(`src/wallet-service/src/repositories/wallet.repository.ts`,
`src/wallet-service/src/services/ledger.service.ts`, the wallet service layer,
and the transaction helper in the database configuration module), together
with proofs of the specified properties.

Modelling conventions:

* The PostgreSQL store is a pure `DB` value.  Tables are lists of rows; the
  `wallet_balances` materialized view is a separate stored list that is only
  rewritten by an explicit refresh (no code path in the service refreshes it).
* SQL queries become list operations translated clause by clause:
  `WHERE` is `List.filter`/`List.find?`, `ORDER BY` is `List.insertionSort`
  with the order relation of the `ORDER BY` clause, `LIMIT`/`OFFSET` are
  `List.take`/`List.drop`, `SUM(CASE …)` is a `map`/`sum` over the filter.
* `uuidv4()` is modelled by drawing from the strictly increasing supply
  `DB.nextTxId`; the freshness of a generated id with respect to ids already
  present in the ledger is the invariant `txIdsFresh`.
* Row locks held by other in-flight transactions are the id set
  `DB.lockedByOthers`; `FOR UPDATE NOWAIT` raises the raw storage error
  `WalletError.storageLockNotAvailable` when a selected row is in that set.
* `withTransaction` (BEGIN / COMMIT / ROLLBACK on error) runs a callback on
  the state and restores the initial state when the callback fails.
* Monetary amounts are integers (`BIGINT` amounts, always positive in the
  schema); timestamps and ids are naturals.  `created_at` is filled from the
  clock `DB.now`, which does not advance inside a transaction, so the two
  entries of a transfer share a timestamp and are tie-broken by entry id,
  exactly as in the SQL `ORDER BY created_at, id`.
-/

namespace DinoWallet

/-- Entry kind of a ledger posting: a `DEBIT` subtracts from a wallet's
balance, a `CREDIT` adds to it. -/
inductive EntryType
  | DEBIT
  | CREDIT
deriving DecidableEq, Repr

/-- A row of the `wallets` table. -/
structure Wallet where
  id : Nat
  account_type : String
  user_id : Option String
  display_name : String
  is_active : Bool
deriving DecidableEq, Repr

/-- A row of the `asset_types` table. -/
structure AssetType where
  id : Nat
  code : String
  name : String
  is_active : Bool
deriving DecidableEq, Repr

/-- A row of the append-only `ledger_entries` table. -/
structure LedgerEntry where
  id : Nat
  transaction_id : Nat
  wallet_id : Nat
  asset_type_id : Nat
  entry_type : EntryType
  amount : Int
  transaction_type : String
  reference_id : String
  description : Option String
  metadata : List (String × String)
  created_at : Nat
deriving DecidableEq, Repr

/-- A row of the `wallet_balances` materialized view. -/
structure WalletBalance where
  wallet_id : Nat
  user_id : Option String
  display_name : String
  asset_type_id : Nat
  asset_code : String
  asset_name : String
  balance : Int
  last_transaction_at : Option Nat
deriving DecidableEq, Repr

/-- The persistent store: the three tables, the materialized view snapshot,
the set of wallet rows currently locked by other in-flight transactions, the
id supplies for `BIGSERIAL`/`uuidv4`, and the clock. -/
structure DB where
  wallets : List Wallet
  asset_types : List AssetType
  ledger_entries : List LedgerEntry
  wallet_balances : List WalletBalance
  lockedByOthers : List Nat
  nextEntryId : Nat
  nextTxId : Nat
  now : Nat
deriving DecidableEq, Repr

/-- The error taxonomy of `src/errors/index.ts`, plus the raw storage error
raised by PostgreSQL when `FOR UPDATE NOWAIT` hits a locked row
(`storageLockNotAvailable`), which is not one of the service's typed
errors. -/
inductive WalletError
  | insufficientFunds (required : Int) (available : Int) (assetCode : String)
  | duplicateTransaction (referenceId : String) (existingTransactionId : Nat)
  | concurrencyError (message : String)
  | walletNotFound (identifier : String)
  | assetTypeNotFound (code : String)
  | validationError (message : String)
  | storageLockNotAvailable (walletIds : List Nat)
  | storageConstraintViolation (constraint : String)
deriving DecidableEq, Repr

/-- Ascending order on wallets by id: the `ORDER BY id ASC` of
`lockWalletsInOrder`. -/
def walletLe (a b : Wallet) : Prop := a.id ≤ b.id

instance : DecidableRel walletLe := fun a b => Nat.decLe a.id b.id

instance : IsTotal Wallet walletLe := ⟨fun a b => Nat.le_total a.id b.id⟩

instance : IsTrans Wallet walletLe := ⟨fun _ _ _ => Nat.le_trans⟩

/-- Lexicographic order on ledger entries by `(created_at, id)`: the
`ORDER BY le.created_at ASC, le.id ASC` of the history window function.
`id` is the primary key, so on table rows this order has no ties. -/
def entryLe (a b : LedgerEntry) : Prop :=
  a.created_at < b.created_at ∨ (a.created_at = b.created_at ∧ a.id ≤ b.id)

instance : DecidableRel entryLe := fun a b => by unfold entryLe; infer_instance

instance : IsTotal LedgerEntry entryLe :=
  ⟨fun a b => by
    unfold entryLe
    rcases Nat.lt_trichotomy a.created_at b.created_at with h | h | h
    · exact Or.inl (Or.inl h)
    · rcases Nat.le_total a.id b.id with h2 | h2
      · exact Or.inl (Or.inr ⟨h, h2⟩)
      · exact Or.inr (Or.inr ⟨h.symm, h2⟩)
    · exact Or.inr (Or.inl h)⟩

instance : IsTrans LedgerEntry entryLe :=
  ⟨fun a b c hab hbc => by
    unfold entryLe at *
    rcases hab with h1 | ⟨e1, l1⟩
    · rcases hbc with h2 | ⟨e2, _⟩
      · exact Or.inl (Nat.lt_trans h1 h2)
      · exact Or.inl (e2 ▸ h1)
    · rcases hbc with h2 | ⟨e2, l2⟩
      · exact Or.inl (e1 ▸ h2)
      · exact Or.inr ⟨e1.trans e2, Nat.le_trans l1 l2⟩⟩

/-- Descending order on history rows (an entry paired with its running
balance): the `ORDER BY created_at DESC, id DESC` of the history query. -/
def rowGe (a b : LedgerEntry × Int) : Prop := entryLe b.1 a.1

instance : DecidableRel rowGe :=
  fun a b => inferInstanceAs (Decidable (entryLe b.1 a.1))

instance : IsTotal (LedgerEntry × Int) rowGe :=
  ⟨fun a b => (IsTotal.total (r := entryLe) b.1 a.1).imp id id⟩

instance : IsTrans (LedgerEntry × Int) rowGe :=
  ⟨fun _ _ _ hab hbc => Trans.trans (r := entryLe) hbc hab⟩

/-- Ascending order on view rows by asset code: the `ORDER BY asset_code ASC`
of `getBalancesFromView`. -/
def balanceRowLe (a b : WalletBalance) : Prop := a.asset_code ≤ b.asset_code

instance : DecidableRel balanceRowLe :=
  fun a b => inferInstanceAs (Decidable (a.asset_code ≤ b.asset_code))

-- ============================================
-- wallet.repository.ts
-- ============================================

/-- `findWalletByUserId` (no lock): first active wallet with the user id. -/
def findWalletByUserId (userId : String) (db : DB) : Except WalletError Wallet :=
  match db.wallets.find? (fun w => w.user_id == some userId && w.is_active) with
  | some w => Except.ok w
  | none => Except.error (WalletError.walletNotFound userId)

/-- `findSystemWalletByName`: active SYSTEM wallet with the display name. -/
def findSystemWalletByName (displayName : String) (db : DB) :
    Except WalletError Wallet :=
  match db.wallets.find? (fun w =>
      w.display_name == displayName && w.account_type == "SYSTEM" &&
        w.is_active) with
  | some w => Except.ok w
  | none => Except.error (WalletError.walletNotFound displayName)

/-- `findAssetTypeByCode`: active asset type with the code. -/
def findAssetTypeByCode (code : String) (db : DB) :
    Except WalletError AssetType :=
  match db.asset_types.find? (fun a => a.code == code && a.is_active) with
  | some a => Except.ok a
  | none => Except.error (WalletError.assetTypeNotFound code)

/-- `lockWalletsInOrder`: sorts the requested ids ascending, then runs
`SELECT … WHERE id = ANY(sortedIds) AND is_active = TRUE ORDER BY id ASC
FOR UPDATE NOWAIT`.  `NOWAIT` raises the raw lock error when any selected row
is already locked by another transaction; the `try/catch` in the source only
logs and rethrows, so the raw error escapes unchanged.  Rows that do not
exist or are inactive are simply not selected — the call succeeds with fewer
rows than requested ids. -/
def lockWalletsInOrder (walletIds : List Nat) (db : DB) :
    Except WalletError (List Wallet) :=
  let sortedIds := List.insertionSort (· ≤ ·) walletIds
  let rows := List.insertionSort walletLe
    (db.wallets.filter (fun w => sortedIds.contains w.id && w.is_active))
  if rows.any (fun w => db.lockedByOthers.contains w.id) then
    Except.error (WalletError.storageLockNotAvailable sortedIds)
  else
    Except.ok rows

/-- Signed value of an entry inside balance aggregates:
`CASE WHEN entry_type = 'CREDIT' THEN amount ELSE -amount END`. -/
def signedAmount (e : LedgerEntry) : Int :=
  match e.entry_type with
  | EntryType.CREDIT => e.amount
  | EntryType.DEBIT => -e.amount

/-- `calculateBalance`: `SELECT COALESCE(SUM(CASE …), 0) FROM ledger_entries
WHERE wallet_id = $1 AND asset_type_id = $2` — the real-time balance. -/
def calculateBalance (walletId assetTypeId : Nat) (db : DB) : Int :=
  ((db.ledger_entries.filter (fun e =>
      e.wallet_id == walletId && e.asset_type_id == assetTypeId)).map
    signedAmount).sum

/-- `getBalancesFromView`: reads the `wallet_balances` materialized view
(the stored snapshot, not the live ledger), filtered by user and optionally
by asset code, ordered by asset code. -/
def getBalancesFromView (userId : String) (assetCode : Option String)
    (db : DB) : List WalletBalance :=
  List.insertionSort balanceRowLe
    (db.wallet_balances.filter (fun b =>
      b.user_id == some userId &&
        (match assetCode with
         | some code => b.asset_code == code
         | none => true)))

/-- `findLedgerEntryByReferenceId`: `SELECT … WHERE reference_id = $1
LIMIT 1` — the idempotency lookup. -/
def findLedgerEntryByReferenceId (referenceId : String) (db : DB) :
    Option LedgerEntry :=
  db.ledger_entries.find? (fun e => e.reference_id == referenceId)

/-- Argument record of `insertLedgerEntry` (`CreateLedgerEntryParams`). -/
structure CreateLedgerEntryParams where
  transactionId : Nat
  walletId : Nat
  assetTypeId : Nat
  entryType : EntryType
  amount : Int
  transactionType : String
  referenceId : String
  description : Option String
  metadata : List (String × String)
deriving DecidableEq, Repr

/-- `insertLedgerEntry`: the `INSERT … RETURNING` on `ledger_entries`.  The
schema constrains the row — `wallet_id REFERENCES wallets(id)`,
`asset_type_id REFERENCES asset_types(id)`, and
`UNIQUE (reference_id, entry_type)` — so the INSERT raises a storage
constraint error when a referenced row is absent or the key pair is taken
(aborting the enclosing transaction); otherwise it appends the row, with
`id` from the serial supply and `created_at` from the clock. -/
def insertLedgerEntry (params : CreateLedgerEntryParams) (db : DB) :
    Except WalletError (LedgerEntry × DB) :=
  if !(db.wallets.any (fun w => w.id == params.walletId)) then
    Except.error (WalletError.storageConstraintViolation
      "ledger_entries_wallet_id_fkey")
  else if !(db.asset_types.any (fun a => a.id == params.assetTypeId)) then
    Except.error (WalletError.storageConstraintViolation
      "ledger_entries_asset_type_id_fkey")
  else if db.ledger_entries.any (fun e =>
      e.reference_id == params.referenceId &&
        e.entry_type == params.entryType) then
    Except.error (WalletError.storageConstraintViolation
      "unique_reference_entry")
  else
    let e : LedgerEntry :=
      { id := db.nextEntryId
        transaction_id := params.transactionId
        wallet_id := params.walletId
        asset_type_id := params.assetTypeId
        entry_type := params.entryType
        amount := params.amount
        transaction_type := params.transactionType
        reference_id := params.referenceId
        description := params.description
        metadata := params.metadata
        created_at := db.now }
    Except.ok (e, { db with
                      ledger_entries := db.ledger_entries ++ [e]
                      nextEntryId := db.nextEntryId + 1 })

/-- The ascending window order of the history query: the filtered entries of
one (wallet, asset) pair sorted by `(created_at ASC, id ASC)`. -/
def historyAsc (walletId assetTypeId : Nat) (db : DB) : List LedgerEntry :=
  List.insertionSort entryLe
    (db.ledger_entries.filter (fun e =>
      e.wallet_id == walletId && e.asset_type_id == assetTypeId))

/-- The cumulative window sum `SUM(CASE …) OVER (ORDER BY created_at, id)`:
pairs every entry with the running signed total up to and including it.
(`id` is the primary key, so the window order has no peer rows and the SQL
RANGE frame coincides with this row-by-row sum.) -/
def withRunning : Int → List LedgerEntry → List (LedgerEntry × Int)
  | _, [] => []
  | acc, e :: rest =>
      (e, acc + signedAmount e) :: withRunning (acc + signedAmount e) rest

/-- `getTransactionHistoryWithBalance`: computes running balances over the
ascending window order, re-orders newest-first
(`ORDER BY created_at DESC, id DESC`), applies `LIMIT limit + 1 OFFSET
offset`, reports `hasMore = rows returned > limit`, and returns only the
first `limit` rows when more came back. -/
def getTransactionHistoryWithBalance (walletId assetTypeId : Nat)
    (limit offset : Nat) (db : DB) : List (LedgerEntry × Int) × Bool :=
  let rowsDesc := List.insertionSort rowGe
    (withRunning 0 (historyAsc walletId assetTypeId db))
  let result := (rowsDesc.drop offset).take (limit + 1)
  let hasMore := decide (result.length > limit)
  let transactions := if result.length > limit then result.take limit
    else result
  (transactions, hasMore)

-- ============================================
-- database config: withTransaction
-- ============================================

/-- `withTransaction`: BEGIN, run the callback, COMMIT on success; on any
error ROLLBACK — the store is restored to its pre-transaction state and the
error is rethrown. -/
def withTransaction {α : Type} (callback : DB → Except WalletError (α × DB))
    (db : DB) : Except WalletError α × DB :=
  match callback db with
  | Except.ok (result, db2) => (Except.ok result, db2)
  | Except.error e => (Except.error e, db)

-- ============================================
-- ledger.service.ts
-- ============================================

/-- `TransactionParams` of the ledger service. -/
structure TransactionParams where
  sourceWalletId : Nat
  targetWalletId : Nat
  assetTypeId : Nat
  amount : Int
  transactionType : String
  referenceId : String
  description : Option String
  metadata : List (String × String)
deriving DecidableEq, Repr

/-- `TransactionResult` of `createTransaction`. -/
structure TransactionResult where
  transactionId : Nat
  debitEntry : LedgerEntry
  creditEntry : LedgerEntry
  newBalance : Int
deriving DecidableEq, Repr

/-- Result record of the single-sided operations. -/
structure SingleEntryResult where
  transactionId : Nat
  entry : LedgerEntry
  newBalance : Int
deriving DecidableEq, Repr

/-- Body of `createTransaction`, step for step: (1) idempotency check,
(2) ordered locking with any lock failure converted to `ConcurrencyError`,
(3) real-time source balance, (4) sufficiency check, (5) fresh transaction
id, (6) DEBIT entry on source, (7) CREDIT entry on target under the derived
`referenceId ++ "_credit"` key, (8) recompute target balance. -/
def createTransactionBody (params : TransactionParams) (db : DB) :
    Except WalletError (TransactionResult × DB) :=
  match findLedgerEntryByReferenceId params.referenceId db with
  | some existingEntry =>
      Except.error (WalletError.duplicateTransaction params.referenceId
        existingEntry.transaction_id)
  | none =>
    match lockWalletsInOrder [params.sourceWalletId, params.targetWalletId]
        db with
    | Except.error _ =>
        Except.error (WalletError.concurrencyError
          "Unable to acquire wallet locks, please retry")
    | Except.ok _ =>
      let sourceBalance :=
        calculateBalance params.sourceWalletId params.assetTypeId db
      if sourceBalance < params.amount then
        Except.error (WalletError.insufficientFunds params.amount
          sourceBalance (toString params.assetTypeId))
      else
        let transactionId := db.nextTxId
        let db1 := { db with nextTxId := db.nextTxId + 1 }
        match insertLedgerEntry
            { transactionId := transactionId
              walletId := params.sourceWalletId
              assetTypeId := params.assetTypeId
              entryType := EntryType.DEBIT
              amount := params.amount
              transactionType := params.transactionType
              referenceId := params.referenceId
              description := params.description
              metadata := params.metadata ++
                [("counterpartyWalletId", toString params.targetWalletId)] }
            db1 with
        | Except.error e => Except.error e
        | Except.ok debitRes =>
          match insertLedgerEntry
              { transactionId := transactionId
                walletId := params.targetWalletId
                assetTypeId := params.assetTypeId
                entryType := EntryType.CREDIT
                amount := params.amount
                transactionType := params.transactionType
                referenceId := params.referenceId ++ "_credit"
                description := params.description
                metadata := params.metadata ++
                  [("counterpartyWalletId", toString params.sourceWalletId)] }
              debitRes.2 with
          | Except.error e => Except.error e
          | Except.ok creditRes =>
            let newBalance :=
              calculateBalance params.targetWalletId params.assetTypeId
                creditRes.2
            Except.ok
              ({ transactionId := transactionId
                 debitEntry := debitRes.1
                 creditEntry := creditRes.1
                 newBalance := newBalance }, creditRes.2)

/-- `createTransaction`: the double-entry transfer, run inside one atomic
serializable unit. -/
def createTransaction (params : TransactionParams) (db : DB) :
    Except WalletError TransactionResult × DB :=
  withTransaction (createTransactionBody params) db

/-- Body of `createCreditOnlyTransaction`: idempotency check, lock the one
wallet (note: the lock call is NOT wrapped in a try/catch here, so a lock
failure propagates as the raw storage error), CREDIT entry, recompute
balance.  No sufficiency check. -/
def createCreditOnlyTransactionBody (walletId assetTypeId : Nat)
    (amount : Int) (transactionType referenceId : String)
    (description : Option String) (metadata : List (String × String))
    (db : DB) : Except WalletError (SingleEntryResult × DB) :=
  match findLedgerEntryByReferenceId referenceId db with
  | some existingEntry =>
      Except.error (WalletError.duplicateTransaction referenceId
        existingEntry.transaction_id)
  | none =>
    match lockWalletsInOrder [walletId] db with
    | Except.error e => Except.error e
    | Except.ok _ =>
      let transactionId := db.nextTxId
      let db1 := { db with nextTxId := db.nextTxId + 1 }
      match insertLedgerEntry
          { transactionId := transactionId
            walletId := walletId
            assetTypeId := assetTypeId
            entryType := EntryType.CREDIT
            amount := amount
            transactionType := transactionType
            referenceId := referenceId
            description := description
            metadata := metadata } db1 with
      | Except.error e => Except.error e
      | Except.ok entryRes =>
        let newBalance := calculateBalance walletId assetTypeId entryRes.2
        Except.ok
          ({ transactionId := transactionId
             entry := entryRes.1
             newBalance := newBalance }, entryRes.2)

/-- `createCreditOnlyTransaction`, run inside one atomic unit. -/
def createCreditOnlyTransaction (walletId assetTypeId : Nat) (amount : Int)
    (transactionType referenceId : String) (description : Option String)
    (metadata : List (String × String)) (db : DB) :
    Except WalletError SingleEntryResult × DB :=
  withTransaction
    (createCreditOnlyTransactionBody walletId assetTypeId amount
      transactionType referenceId description metadata) db

/-- Body of `createDebitOnlyTransaction`: idempotency check, lock the one
wallet (again NOT wrapped in a try/catch: a lock failure propagates as the
raw storage error), balance check, DEBIT entry, recompute balance. -/
def createDebitOnlyTransactionBody (walletId assetTypeId : Nat)
    (amount : Int) (transactionType referenceId : String)
    (description : Option String) (metadata : List (String × String))
    (db : DB) : Except WalletError (SingleEntryResult × DB) :=
  match findLedgerEntryByReferenceId referenceId db with
  | some existingEntry =>
      Except.error (WalletError.duplicateTransaction referenceId
        existingEntry.transaction_id)
  | none =>
    match lockWalletsInOrder [walletId] db with
    | Except.error e => Except.error e
    | Except.ok _ =>
      let currentBalance := calculateBalance walletId assetTypeId db
      if currentBalance < amount then
        Except.error (WalletError.insufficientFunds amount currentBalance
          (toString assetTypeId))
      else
        let transactionId := db.nextTxId
        let db1 := { db with nextTxId := db.nextTxId + 1 }
        match insertLedgerEntry
            { transactionId := transactionId
              walletId := walletId
              assetTypeId := assetTypeId
              entryType := EntryType.DEBIT
              amount := amount
              transactionType := transactionType
              referenceId := referenceId
              description := description
              metadata := metadata } db1 with
        | Except.error e => Except.error e
        | Except.ok entryRes =>
          let newBalance := calculateBalance walletId assetTypeId entryRes.2
          Except.ok
            ({ transactionId := transactionId
               entry := entryRes.1
               newBalance := newBalance }, entryRes.2)

/-- `createDebitOnlyTransaction`, run inside one atomic unit. -/
def createDebitOnlyTransaction (walletId assetTypeId : Nat) (amount : Int)
    (transactionType referenceId : String) (description : Option String)
    (metadata : List (String × String)) (db : DB) :
    Except WalletError SingleEntryResult × DB :=
  withTransaction
    (createDebitOnlyTransactionBody walletId assetTypeId amount
      transactionType referenceId description metadata) db

-- ============================================
-- wallet.service.ts: spend
-- ============================================

/-- `SYSTEM_WALLETS.REVENUE` of `wallet.types.ts`. -/
def SYSTEM_WALLETS_REVENUE : String := "Revenue Account"

/-- `SpendRequest` DTO. -/
structure SpendRequest where
  user_id : String
  asset_code : String
  amount : Int
  reference_id : String
  item_id : String
  metadata : List (String × String)
deriving DecidableEq, Repr

/-- `TransactionResponse` DTO (timestamp omitted: it does not feed back into
any behaviour). -/
structure TransactionResponse where
  transaction_id : Nat
  user_id : String
  asset_code : String
  amount : Int
  balance : Int
  transaction_type : String
deriving DecidableEq, Repr

/-- `spend`: validates the amount, resolves the user wallet, asset type and
revenue wallet, runs the double-entry transfer user → revenue, and then
reads the reported balance from the `wallet_balances` materialized view
(`balances.length > 0 ? balances[0].balance : 0`) — not from the
`newBalance` computed inside the transaction. -/
def spend (request : SpendRequest) (db : DB) :
    Except WalletError TransactionResponse × DB :=
  if request.amount ≤ 0 then
    (Except.error (WalletError.validationError
      "Amount must be greater than 0"), db)
  else
    match findWalletByUserId request.user_id db with
    | Except.error e => (Except.error e, db)
    | Except.ok userWallet =>
      match findAssetTypeByCode request.asset_code db with
      | Except.error e => (Except.error e, db)
      | Except.ok assetType =>
        match findSystemWalletByName SYSTEM_WALLETS_REVENUE db with
        | Except.error e => (Except.error e, db)
        | Except.ok revenueWallet =>
          match createTransaction
              { sourceWalletId := userWallet.id
                targetWalletId := revenueWallet.id
                assetTypeId := assetType.id
                amount := request.amount
                transactionType := "SPEND"
                referenceId := request.reference_id
                description := some ("Purchase: " ++ request.item_id)
                metadata := request.metadata ++
                  [("item_id", request.item_id)] } db with
          | (Except.error e, db2) => (Except.error e, db2)
          | (Except.ok result, db2) =>
            let balances :=
              getBalancesFromView request.user_id (some request.asset_code)
                db2
            let currentBalance :=
              match balances with
              | b :: _ => b.balance
              | [] => 0
            (Except.ok
              { transaction_id := result.transactionId
                user_id := request.user_id
                asset_code := request.asset_code
                amount := request.amount
                balance := currentBalance
                transaction_type := "SPEND" }, db2)

/-- Freshness invariant for the `uuidv4` model: every transaction id already
in the ledger is below the supply counter. -/
def txIdsFresh (db : DB) : Prop :=
  ∀ e ∈ db.ledger_entries, e.transaction_id < db.nextTxId

instance (db : DB) : Decidable (txIdsFresh db) :=
  inferInstanceAs
    (Decidable (∀ e ∈ db.ledger_entries, e.transaction_id < db.nextTxId))

instance {ε α : Type} [DecidableEq ε] [DecidableEq α] :
    DecidableEq (Except ε α) := fun x y =>
  match x, y with
  | Except.ok a, Except.ok b =>
      if h : a = b then isTrue (congrArg Except.ok h)
      else isFalse (fun hh => h (Except.ok.inj hh))
  | Except.error a, Except.error b =>
      if h : a = b then isTrue (congrArg Except.error h)
      else isFalse (fun hh => h (Except.error.inj hh))
  | Except.ok _, Except.error _ => isFalse (fun hh => Except.noConfusion hh)
  | Except.error _, Except.ok _ => isFalse (fun hh => Except.noConfusion hh)

-- ============================================
-- Shared helper lemmas
-- ============================================

/-- A signed sum over entries splits into the credit part minus the debit
part. -/
theorem signed_sum_split (l : List LedgerEntry) :
    (l.map signedAmount).sum =
      ((l.filter (fun e => e.entry_type == EntryType.CREDIT)).map
        (fun e => e.amount)).sum -
      ((l.filter (fun e => e.entry_type == EntryType.DEBIT)).map
        (fun e => e.amount)).sum := by
  induction l with
  | nil => simp
  | cons e rest ih =>
    cases he : e.entry_type <;>
      simp [signedAmount, he, ih] <;> ring

/-- `withRunning` keeps the length of the entry list. -/
theorem withRunning_length (acc : Int) (l : List LedgerEntry) :
    (withRunning acc l).length = l.length := by
  induction l generalizing acc with
  | nil => rfl
  | cons e rest ih => simp [withRunning, ih]

/-- Every row produced by `withRunning` carries the running signed total of
the prefix of the entry list up to and including its entry. -/
theorem withRunning_mem (acc : Int) (l : List LedgerEntry)
    (r : LedgerEntry × Int) (h : r ∈ withRunning acc l) :
    ∃ k, ∃ hk : k < l.length, l.get ⟨k, hk⟩ = r.1 ∧
      r.2 = acc + ((l.take (k + 1)).map signedAmount).sum := by
  induction l generalizing acc with
  | nil => cases h
  | cons e rest ih =>
    rw [withRunning] at h
    rcases List.mem_cons.mp h with h1 | h2
    · refine ⟨0, by simp, ?_, ?_⟩
      · rw [h1]
        rfl
      · rw [h1]
        simp
    · obtain ⟨k, hk, hget, hsum⟩ := ih (acc + signedAmount e) h2
      refine ⟨k + 1, by simpa using Nat.succ_lt_succ hk, ?_, ?_⟩
      · simpa using hget
      · rw [hsum]
        simp
        ring

/-- Inversion for a successful insert: the returned row and store have the
canonical shape. -/
theorem insertLedgerEntry_ok_shape (p : CreateLedgerEntryParams) (db : DB)
    (res : LedgerEntry × DB) (h : insertLedgerEntry p db = Except.ok res) :
    res = ({ id := db.nextEntryId, transaction_id := p.transactionId,
             wallet_id := p.walletId, asset_type_id := p.assetTypeId,
             entry_type := p.entryType, amount := p.amount,
             transaction_type := p.transactionType,
             reference_id := p.referenceId, description := p.description,
             metadata := p.metadata, created_at := db.now },
           { db with
               ledger_entries := db.ledger_entries ++
                 [{ id := db.nextEntryId, transaction_id := p.transactionId,
                    wallet_id := p.walletId, asset_type_id := p.assetTypeId,
                    entry_type := p.entryType, amount := p.amount,
                    transaction_type := p.transactionType,
                    reference_id := p.referenceId,
                    description := p.description, metadata := p.metadata,
                    created_at := db.now }],
               nextEntryId := db.nextEntryId + 1 }) := by
  simp only [insertLedgerEntry] at h
  split at h
  · exact absurd h (by simp)
  · split at h
    · exact absurd h (by simp)
    · split at h
      · exact absurd h (by simp)
      · exact (Except.ok.inj h).symm

/-- An insert succeeds when the two foreign keys resolve and the
`(reference_id, entry_type)` pair is unused. -/
theorem insertLedgerEntry_ok_of (p : CreateLedgerEntryParams) (db : DB)
    (hw : db.wallets.any (fun w => w.id == p.walletId) = true)
    (ha : db.asset_types.any (fun a => a.id == p.assetTypeId) = true)
    (hu : db.ledger_entries.any (fun e =>
      e.reference_id == p.referenceId &&
        e.entry_type == p.entryType) = false) :
    insertLedgerEntry p db = Except.ok
      ({ id := db.nextEntryId, transaction_id := p.transactionId,
         wallet_id := p.walletId, asset_type_id := p.assetTypeId,
         entry_type := p.entryType, amount := p.amount,
         transaction_type := p.transactionType,
         reference_id := p.referenceId, description := p.description,
         metadata := p.metadata, created_at := db.now },
       { db with
           ledger_entries := db.ledger_entries ++
             [{ id := db.nextEntryId, transaction_id := p.transactionId,
                wallet_id := p.walletId, asset_type_id := p.assetTypeId,
                entry_type := p.entryType, amount := p.amount,
                transaction_type := p.transactionType,
                reference_id := p.referenceId,
                description := p.description, metadata := p.metadata,
                created_at := db.now }],
           nextEntryId := db.nextEntryId + 1 }) := by
  simp only [insertLedgerEntry, hw, ha, hu]
  rfl

/-- Inversion for a successful transfer: the idempotency lookup found
nothing, the transaction id is the fresh one, and the result and final store
have the canonical double-entry shape. -/
theorem createTransaction_ok_inv (params : TransactionParams) (db : DB)
    (result : TransactionResult) (db2 : DB)
    (h : createTransaction params db = (Except.ok result, db2)) :
    findLedgerEntryByReferenceId params.referenceId db = none ∧
    result.transactionId = db.nextTxId ∧
    result.debitEntry =
      { id := db.nextEntryId, transaction_id := db.nextTxId,
        wallet_id := params.sourceWalletId,
        asset_type_id := params.assetTypeId,
        entry_type := EntryType.DEBIT, amount := params.amount,
        transaction_type := params.transactionType,
        reference_id := params.referenceId,
        description := params.description,
        metadata := params.metadata ++
          [("counterpartyWalletId", toString params.targetWalletId)],
        created_at := db.now } ∧
    result.creditEntry =
      { id := db.nextEntryId + 1, transaction_id := db.nextTxId,
        wallet_id := params.targetWalletId,
        asset_type_id := params.assetTypeId,
        entry_type := EntryType.CREDIT, amount := params.amount,
        transaction_type := params.transactionType,
        reference_id := params.referenceId ++ "_credit",
        description := params.description,
        metadata := params.metadata ++
          [("counterpartyWalletId", toString params.sourceWalletId)],
        created_at := db.now } ∧
    db2 = { db with
      ledger_entries := db.ledger_entries ++ [result.debitEntry] ++
        [result.creditEntry],
      nextEntryId := db.nextEntryId + 1 + 1,
      nextTxId := db.nextTxId + 1 } := by
  unfold createTransaction withTransaction createTransactionBody at h
  cases hfind : findLedgerEntryByReferenceId params.referenceId db <;>
    rw [hfind] at h
  case some e => simp at h
  case none =>
  cases hlock : lockWalletsInOrder
      [params.sourceWalletId, params.targetWalletId] db <;>
    rw [hlock] at h
  case error e => simp at h
  case ok ws =>
  by_cases hb : calculateBalance params.sourceWalletId params.assetTypeId
      db < params.amount
  · rw [if_pos hb] at h
    simp at h
  · rw [if_neg hb] at h
    dsimp only at h
    cases h4 : insertLedgerEntry
        { transactionId := db.nextTxId
          walletId := params.sourceWalletId
          assetTypeId := params.assetTypeId
          entryType := EntryType.DEBIT
          amount := params.amount
          transactionType := params.transactionType
          referenceId := params.referenceId
          description := params.description
          metadata := params.metadata ++
            [("counterpartyWalletId", toString params.targetWalletId)] }
        { db with nextTxId := db.nextTxId + 1 } with
    | error e =>
      rw [h4] at h
      simp at h
    | ok debitRes =>
      rw [h4] at h
      have h4s := insertLedgerEntry_ok_shape _ _ _ h4
      subst h4s
      dsimp only at h
      split at h
      · next r d heqO =>
        split at heqO
        · exact absurd heqO (by simp)
        · next creditRes heqI =>
          have h5s := insertLedgerEntry_ok_shape _ _ _ heqI
          subst h5s
          replace heqO := Except.ok.inj heqO
          rw [Prod.mk.injEq] at heqO
          obtain ⟨hr, hd⟩ := heqO
          subst hr
          subst hd
          rw [Prod.mk.injEq] at h
          obtain ⟨hres, hdb⟩ := h
          replace hres := Except.ok.inj hres
          subst hdb
          subst hres
          exact ⟨rfl, rfl, rfl, rfl, rfl⟩
      · simp at h

-- ============================================
-- Claim theorems
-- ============================================

/-- C2: for every (account, asset) pair, the real-time balance computed by
`calculateBalance` equals the sum of the credit amounts minus the sum of the
debit amounts over all committed ledger entries for that pair, and equals 0
when no entries exist for the pair. -/
theorem calculateBalance_law (walletId assetTypeId : Nat) (db : DB) :
    (calculateBalance walletId assetTypeId db =
      (((db.ledger_entries.filter (fun e =>
            e.wallet_id == walletId && e.asset_type_id == assetTypeId)).filter
          (fun e => e.entry_type == EntryType.CREDIT)).map
        (fun e => e.amount)).sum -
      (((db.ledger_entries.filter (fun e =>
            e.wallet_id == walletId && e.asset_type_id == assetTypeId)).filter
          (fun e => e.entry_type == EntryType.DEBIT)).map
        (fun e => e.amount)).sum) ∧
    (db.ledger_entries.filter (fun e =>
        e.wallet_id == walletId && e.asset_type_id == assetTypeId) = [] →
      calculateBalance walletId assetTypeId db = 0) := by
  constructor
  · unfold calculateBalance
    exact signed_sum_split _
  · intro h
    unfold calculateBalance
    rw [h]
    simp

/-- Witness for C2 at a concrete store with no entries for the pair. -/
theorem calculateBalance_law_witness :
    calculateBalance 7 9
      { wallets := [], asset_types := [], ledger_entries := [],
        wallet_balances := [], lockedByOthers := [], nextEntryId := 0,
        nextTxId := 0, now := 0 } = 0 :=
  (calculateBalance_law 7 9
    { wallets := [], asset_types := [], ledger_entries := [],
      wallet_balances := [], lockedByOthers := [], nextEntryId := 0,
      nextTxId := 0, now := 0 }).2 (by decide)

/-- C5: `lockWalletsInOrder` locks in strictly ascending id order,
deterministically: any two permutations of the same requested id set produce
the identical call (same acquisition order, same outcome), and any
successfully returned row list is strictly ascending in id. -/
theorem lockWalletsInOrder_deterministic_ascending (ids1 ids2 : List Nat)
    (db : DB) (hperm : List.Perm ids1 ids2)
    (hnodup : (db.wallets.map Wallet.id).Nodup) :
    lockWalletsInOrder ids1 db = lockWalletsInOrder ids2 db ∧
    ∀ ws, lockWalletsInOrder ids1 db = Except.ok ws →
      ws.Pairwise (fun a b => a.id < b.id) := by
  have hsorted_eq : List.insertionSort (· ≤ ·) ids1 =
      List.insertionSort (· ≤ ·) ids2 :=
    List.eq_of_perm_of_sorted
      (((List.perm_insertionSort _ ids1).trans hperm).trans
        (List.perm_insertionSort _ ids2).symm)
      (List.sorted_insertionSort _ ids1) (List.sorted_insertionSort _ ids2)
  constructor
  · unfold lockWalletsInOrder
    rw [hsorted_eq]
  · intro ws hws
    simp only [lockWalletsInOrder] at hws
    split at hws
    · exact absurd hws (by simp)
    · replace hws := Except.ok.inj hws
      subst hws
      have hsort : List.Pairwise walletLe (List.insertionSort walletLe
          (db.wallets.filter (fun w =>
            (List.insertionSort (· ≤ ·) ids1).contains w.id &&
              w.is_active))) :=
        List.sorted_insertionSort walletLe _
      have hsub : List.Sublist (db.wallets.filter (fun w =>
          (List.insertionSort (· ≤ ·) ids1).contains w.id && w.is_active))
          db.wallets := List.filter_sublist _
      have hnd : ((db.wallets.filter (fun w =>
          (List.insertionSort (· ≤ ·) ids1).contains w.id &&
            w.is_active)).map Wallet.id).Nodup :=
        (hsub.map Wallet.id).nodup hnodup
      have hnd2 : ((List.insertionSort walletLe
          (db.wallets.filter (fun w =>
            (List.insertionSort (· ≤ ·) ids1).contains w.id &&
              w.is_active))).map Wallet.id).Nodup :=
        (((List.perm_insertionSort walletLe _).map Wallet.id).nodup_iff).mpr
          hnd
      have hne : List.Pairwise (fun a b : Wallet => a.id ≠ b.id)
          (List.insertionSort walletLe (db.wallets.filter (fun w =>
            (List.insertionSort (· ≤ ·) ids1).contains w.id &&
              w.is_active))) :=
        (List.pairwise_map).mp hnd2
      exact (hsort.and hne).imp (fun h => lt_of_le_of_ne h.1 h.2)

/-- Witness for C5: two opposite caller orders of the same two accounts. -/
theorem lockWalletsInOrder_deterministic_ascending_witness :
    lockWalletsInOrder [2, 1]
      { wallets := [{ id := 1, account_type := "USER",
                      user_id := some "alice", display_name := "a",
                      is_active := true },
                    { id := 2, account_type := "SYSTEM", user_id := none,
                      display_name := "r", is_active := true }],
        asset_types := [], ledger_entries := [], wallet_balances := [],
        lockedByOthers := [], nextEntryId := 0, nextTxId := 0, now := 0 } =
    lockWalletsInOrder [1, 2]
      { wallets := [{ id := 1, account_type := "USER",
                      user_id := some "alice", display_name := "a",
                      is_active := true },
                    { id := 2, account_type := "SYSTEM", user_id := none,
                      display_name := "r", is_active := true }],
        asset_types := [], ledger_entries := [], wallet_balances := [],
        lockedByOthers := [], nextEntryId := 0, nextTxId := 0, now := 0 } :=
  (lockWalletsInOrder_deterministic_ascending [2, 1] [1, 2]
    { wallets := [{ id := 1, account_type := "USER",
                    user_id := some "alice", display_name := "a",
                    is_active := true },
                  { id := 2, account_type := "SYSTEM", user_id := none,
                    display_name := "r", is_active := true }],
      asset_types := [], ledger_entries := [], wallet_balances := [],
      lockedByOthers := [], nextEntryId := 0, nextTxId := 0, now := 0 }
    (by decide) (by decide)).1

/-- Sample store for the pagination witness: two GOLD entries on wallet 1. -/
def dbC8 : DB :=
  { wallets := [], asset_types := []
    ledger_entries :=
      [{ id := 0, transaction_id := 0, wallet_id := 1, asset_type_id := 10,
         entry_type := EntryType.CREDIT, amount := 100,
         transaction_type := "TOPUP", reference_id := "t1",
         description := none, metadata := [], created_at := 0 },
       { id := 1, transaction_id := 1, wallet_id := 1, asset_type_id := 10,
         entry_type := EntryType.DEBIT, amount := 25,
         transaction_type := "SPEND", reference_id := "s1",
         description := none, metadata := [], created_at := 1 }]
    wallet_balances := [], lockedByOthers := [], nextEntryId := 2,
    nextTxId := 2, now := 2 }

/-- C8: the history query reports `hasMore = true` exactly when strictly
more than `limit` entries for the (account, asset) pair exist beyond
`offset`, and returns at most `limit` rows. -/
theorem history_hasMore_iff (walletId assetTypeId limit offset : Nat)
    (db : DB) :
    ((getTransactionHistoryWithBalance walletId assetTypeId limit offset
        db).2 = true ↔
      offset + limit < (db.ledger_entries.filter (fun e =>
        e.wallet_id == walletId &&
          e.asset_type_id == assetTypeId)).length) ∧
    (getTransactionHistoryWithBalance walletId assetTypeId limit offset
      db).1.length ≤ limit := by
  have hlen : (List.insertionSort rowGe
      (withRunning 0 (historyAsc walletId assetTypeId db))).length =
      (db.ledger_entries.filter (fun e =>
        e.wallet_id == walletId &&
          e.asset_type_id == assetTypeId)).length := by
    rw [(List.perm_insertionSort rowGe _).length_eq, withRunning_length]
    unfold historyAsc
    exact (List.perm_insertionSort entryLe _).length_eq
  simp only [getTransactionHistoryWithBalance]
  constructor
  · rw [decide_eq_true_iff, List.length_take, List.length_drop, hlen]
    omega
  · split
    · rw [List.length_take]
      exact min_le_left _ _
    · next hc => exact Nat.le_of_not_lt hc

/-- Witness for C8: with two entries for the pair, `limit = 1`, `offset = 0`
the query reports `hasMore = true`. -/
theorem history_hasMore_iff_witness :
    (getTransactionHistoryWithBalance 1 10 1 0 dbC8).2 = true :=
  (history_hasMore_iff 1 10 1 0 dbC8).1.mpr (by decide)

/-- C9: every row returned by the history query carries as `balance_after`
the cumulative signed sum of the entries for the pair, in the order
`(created_at, id)` ascending, up to and including that row's entry; and the
rows come back newest-first (`(created_at, id)` descending). -/
theorem history_running_balance (walletId assetTypeId limit offset : Nat)
    (db : DB) :
    (∀ r ∈ (getTransactionHistoryWithBalance walletId assetTypeId limit
        offset db).1,
      ∃ k, ∃ hk : k < (historyAsc walletId assetTypeId db).length,
        (historyAsc walletId assetTypeId db).get ⟨k, hk⟩ = r.1 ∧
        r.2 = (((historyAsc walletId assetTypeId db).take (k + 1)).map
          signedAmount).sum) ∧
    (getTransactionHistoryWithBalance walletId assetTypeId limit offset
      db).1.Pairwise rowGe := by
  constructor
  · intro r hr
    simp only [getTransactionHistoryWithBalance] at hr
    have hr2 : r ∈ List.insertionSort rowGe
        (withRunning 0 (historyAsc walletId assetTypeId db)) := by
      have step1 : r ∈ ((List.insertionSort rowGe
          (withRunning 0 (historyAsc walletId assetTypeId
            db))).drop offset).take (limit + 1) := by
        split at hr
        · exact List.take_subset _ _ hr
        · exact hr
      exact List.drop_subset _ _ (List.take_subset _ _ step1)
    have hr3 : r ∈ withRunning 0 (historyAsc walletId assetTypeId db) :=
      ((List.perm_insertionSort rowGe _).mem_iff).mp hr2
    obtain ⟨k, hk, hget, hsum⟩ := withRunning_mem 0 _ r hr3
    exact ⟨k, hk, hget, by simpa using hsum⟩
  · have hsorted : List.Pairwise rowGe (List.insertionSort rowGe
        (withRunning 0 (historyAsc walletId assetTypeId db))) :=
      List.sorted_insertionSort rowGe _
    simp only [getTransactionHistoryWithBalance]
    split
    · exact hsorted.sublist ((List.take_sublist _ _).trans
        ((List.take_sublist _ _).trans (List.drop_sublist _ _)))
    · exact hsorted.sublist ((List.take_sublist _ _).trans
        (List.drop_sublist _ _))

/-- Sample store for the running-balance witness. -/
def dbC9 : DB :=
  { dbC8 with wallet_balances := [] }

/-- Witness for C9: the returned rows at a concrete store are newest-first. -/
theorem history_running_balance_witness :
    (getTransactionHistoryWithBalance 1 10 1 0 dbC9).1.Pairwise rowGe :=
  (history_running_balance 1 10 1 0 dbC9).2

/-- C1: a successful `createTransaction` writes exactly one DEBIT entry on
the source and one CREDIT entry on the target, both with the same amount and
asset type, both under one freshly generated transaction id, so the entries
sharing that transaction id sum to zero per asset type. -/
theorem createTransaction_balanced_pair (params : TransactionParams)
    (db : DB) (result : TransactionResult) (db2 : DB)
    (hfresh : txIdsFresh db)
    (hrun : createTransaction params db = (Except.ok result, db2)) :
    db2.ledger_entries.filter (fun e =>
        e.transaction_id == result.transactionId) =
      [result.debitEntry, result.creditEntry] ∧
    result.debitEntry.entry_type = EntryType.DEBIT ∧
    result.debitEntry.wallet_id = params.sourceWalletId ∧
    result.debitEntry.asset_type_id = params.assetTypeId ∧
    result.debitEntry.amount = params.amount ∧
    result.debitEntry.transaction_id = result.transactionId ∧
    result.creditEntry.entry_type = EntryType.CREDIT ∧
    result.creditEntry.wallet_id = params.targetWalletId ∧
    result.creditEntry.asset_type_id = params.assetTypeId ∧
    result.creditEntry.amount = params.amount ∧
    result.creditEntry.transaction_id = result.transactionId ∧
    (∀ e ∈ db.ledger_entries, e.transaction_id ≠ result.transactionId) ∧
    (∀ asset : Nat,
      ((db2.ledger_entries.filter (fun e =>
          e.transaction_id == result.transactionId &&
            e.asset_type_id == asset)).map signedAmount).sum = 0) := by
  obtain ⟨hfind, htx, hdeb, hcred, hdb2⟩ :=
    createTransaction_ok_inv params db result db2 hrun
  have hfilter_nil : ∀ q : LedgerEntry → Bool,
      (∀ e : LedgerEntry, q e = true → e.transaction_id == db.nextTxId) →
      db.ledger_entries.filter q = [] := by
    intro q hq
    rw [List.filter_eq_nil_iff]
    intro e he hqe
    have h1 := hfresh e he
    have h2 : e.transaction_id = db.nextTxId := by
      have := hq e hqe
      simpa using this
    omega
  refine ⟨?_, ?_, ?_, ?_, ?_, ?_, ?_, ?_, ?_, ?_, ?_, ?_, ?_⟩
  · rw [hdb2, htx]
    dsimp only
    rw [List.filter_append, List.filter_append,
      hfilter_nil _ (fun e hqe => by simpa using hqe)]
    simp [hdeb, hcred]
  · rw [hdeb]
  · rw [hdeb]
  · rw [hdeb]
  · rw [hdeb]
  · rw [hdeb, htx]
  · rw [hcred]
  · rw [hcred]
  · rw [hcred]
  · rw [hcred]
  · rw [hcred, htx]
  · intro e he
    rw [htx]
    exact Nat.ne_of_lt (hfresh e he)
  · intro asset
    rw [hdb2, htx]
    dsimp only
    rw [List.filter_append, List.filter_append,
      hfilter_nil _ (fun e hqe => by
        simp at hqe
        simp [hqe.1])]
    by_cases ha : params.assetTypeId = asset
    · subst ha
      simp [hdeb, hcred, signedAmount]
    · simp [hdeb, hcred, ha, signedAmount]

/-- Input store for the C1 witness: wallet 1 funded with 100 GOLD. -/
def dbC1 : DB :=
  { wallets := [{ id := 1, account_type := "USER",
                  user_id := some "alice", display_name := "a",
                  is_active := true },
                { id := 2, account_type := "SYSTEM", user_id := none,
                  display_name := "Revenue Account", is_active := true }]
    asset_types := [{ id := 10, code := "GOLD_COINS", name := "Gold Coins",
                      is_active := true }]
    ledger_entries :=
      [{ id := 0, transaction_id := 0, wallet_id := 1, asset_type_id := 10,
         entry_type := EntryType.CREDIT, amount := 100,
         transaction_type := "TOPUP", reference_id := "init_001",
         description := none, metadata := [], created_at := 0 }]
    wallet_balances := [], lockedByOthers := [], nextEntryId := 1,
    nextTxId := 1, now := 5 }

/-- Transfer parameters for the C1 witness. -/
def paramsC1 : TransactionParams :=
  { sourceWalletId := 1, targetWalletId := 2, assetTypeId := 10,
    amount := 30, transactionType := "SPEND", referenceId := "ref_001",
    description := none, metadata := [] }

/-- DEBIT entry written by the C1 witness run. -/
def debitC1 : LedgerEntry :=
  { id := 1, transaction_id := 1, wallet_id := 1, asset_type_id := 10,
    entry_type := EntryType.DEBIT, amount := 30,
    transaction_type := "SPEND", reference_id := "ref_001",
    description := none, metadata := [("counterpartyWalletId", "2")],
    created_at := 5 }

/-- CREDIT entry written by the C1 witness run. -/
def creditC1 : LedgerEntry :=
  { id := 2, transaction_id := 1, wallet_id := 2, asset_type_id := 10,
    entry_type := EntryType.CREDIT, amount := 30,
    transaction_type := "SPEND", reference_id := "ref_001_credit",
    description := none, metadata := [("counterpartyWalletId", "1")],
    created_at := 5 }

/-- Result of the C1 witness run. -/
def resC1 : TransactionResult :=
  { transactionId := 1, debitEntry := debitC1, creditEntry := creditC1,
    newBalance := 30 }

/-- Post-run store of the C1 witness. -/
def dbC1' : DB :=
  { dbC1 with
      ledger_entries := dbC1.ledger_entries ++ [debitC1, creditC1],
      nextEntryId := 3, nextTxId := 2 }

/-- Witness for C1: a concrete successful transfer satisfies the balanced
double-entry conclusion. -/
theorem createTransaction_balanced_pair_witness :
    dbC1'.ledger_entries.filter (fun e =>
        e.transaction_id == resC1.transactionId) =
      [resC1.debitEntry, resC1.creditEntry] ∧
    resC1.debitEntry.entry_type = EntryType.DEBIT ∧
    resC1.debitEntry.wallet_id = paramsC1.sourceWalletId ∧
    resC1.debitEntry.asset_type_id = paramsC1.assetTypeId ∧
    resC1.debitEntry.amount = paramsC1.amount ∧
    resC1.debitEntry.transaction_id = resC1.transactionId ∧
    resC1.creditEntry.entry_type = EntryType.CREDIT ∧
    resC1.creditEntry.wallet_id = paramsC1.targetWalletId ∧
    resC1.creditEntry.asset_type_id = paramsC1.assetTypeId ∧
    resC1.creditEntry.amount = paramsC1.amount ∧
    resC1.creditEntry.transaction_id = resC1.transactionId ∧
    (∀ e ∈ dbC1.ledger_entries, e.transaction_id ≠ resC1.transactionId) ∧
    (∀ asset : Nat,
      ((dbC1'.ledger_entries.filter (fun e =>
          e.transaction_id == resC1.transactionId &&
            e.asset_type_id == asset)).map signedAmount).sum = 0) :=
  createTransaction_balanced_pair paramsC1 dbC1 resC1 dbC1' (by decide)
    (by decide)

/-- C3: when the source balance is insufficient, both the transfer and the
debit-only operation abort with `InsufficientFunds` carrying the required
amount and the available balance, write zero ledger entries, and leave every
balance unchanged (the atomic unit is rolled back whole). -/
theorem insufficient_funds_leaves_no_trace (params : TransactionParams)
    (db : DB) (walletId assetTypeId : Nat) (amount : Int)
    (transactionType referenceId : String) (dOpt : Option String)
    (meta : List (String × String)) (dbd : DB) :
    ((findLedgerEntryByReferenceId params.referenceId db = none ∧
      (lockWalletsInOrder [params.sourceWalletId, params.targetWalletId]
        db).isOk = true ∧
      calculateBalance params.sourceWalletId params.assetTypeId db <
        params.amount) →
      createTransaction params db =
        (Except.error (WalletError.insufficientFunds params.amount
          (calculateBalance params.sourceWalletId params.assetTypeId db)
          (toString params.assetTypeId)), db) ∧
      (createTransaction params db).2.ledger_entries = db.ledger_entries ∧
      ∀ w a : Nat, calculateBalance w a (createTransaction params db).2 =
        calculateBalance w a db) ∧
    ((findLedgerEntryByReferenceId referenceId dbd = none ∧
      (lockWalletsInOrder [walletId] dbd).isOk = true ∧
      calculateBalance walletId assetTypeId dbd < amount) →
      createDebitOnlyTransaction walletId assetTypeId amount
        transactionType referenceId dOpt meta dbd =
        (Except.error (WalletError.insufficientFunds amount
          (calculateBalance walletId assetTypeId dbd)
          (toString assetTypeId)), dbd) ∧
      (createDebitOnlyTransaction walletId assetTypeId amount
        transactionType referenceId dOpt meta dbd).2.ledger_entries =
        dbd.ledger_entries ∧
      ∀ w a : Nat, calculateBalance w a
        (createDebitOnlyTransaction walletId assetTypeId amount
          transactionType referenceId dOpt meta dbd).2 =
        calculateBalance w a dbd) := by
  constructor
  · rintro ⟨h1, h2, h3⟩
    have hmain : createTransaction params db =
        (Except.error (WalletError.insufficientFunds params.amount
          (calculateBalance params.sourceWalletId params.assetTypeId db)
          (toString params.assetTypeId)), db) := by
      unfold createTransaction withTransaction createTransactionBody
      rw [h1]
      dsimp only
      cases hl : lockWalletsInOrder
          [params.sourceWalletId, params.targetWalletId] db with
      | error e =>
        rw [hl] at h2
        simp [Except.isOk, Except.toBool] at h2
      | ok ws =>
        dsimp only
        rw [if_pos h3]
    refine ⟨hmain, ?_, ?_⟩
    · rw [hmain]
    · intro w a
      rw [hmain]
  · rintro ⟨h1, h2, h3⟩
    have hmain : createDebitOnlyTransaction walletId assetTypeId amount
        transactionType referenceId dOpt meta dbd =
        (Except.error (WalletError.insufficientFunds amount
          (calculateBalance walletId assetTypeId dbd)
          (toString assetTypeId)), dbd) := by
      unfold createDebitOnlyTransaction withTransaction
        createDebitOnlyTransactionBody
      rw [h1]
      dsimp only
      cases hl : lockWalletsInOrder [walletId] dbd with
      | error e =>
        rw [hl] at h2
        simp [Except.isOk, Except.toBool] at h2
      | ok ws =>
        dsimp only
        rw [if_pos h3]
    refine ⟨hmain, ?_, ?_⟩
    · rw [hmain]
    · intro w a
      rw [hmain]

/-- Input store for the C3 witness: wallets 1 and 2 exist, the ledger is
empty, so every balance is 0. -/
def dbC3 : DB :=
  { wallets := [{ id := 1, account_type := "USER",
                  user_id := some "alice", display_name := "a",
                  is_active := true },
                { id := 2, account_type := "SYSTEM", user_id := none,
                  display_name := "Revenue Account", is_active := true }]
    asset_types := [], ledger_entries := [], wallet_balances := [],
    lockedByOthers := [], nextEntryId := 0, nextTxId := 0, now := 0 }

/-- Transfer parameters for the C3 witness: amount 5 against balance 0. -/
def paramsC3 : TransactionParams :=
  { sourceWalletId := 1, targetWalletId := 2, assetTypeId := 10,
    amount := 5, transactionType := "SPEND", referenceId := "ref_ins",
    description := none, metadata := [] }

/-- Witness for C3: on balance 0, both operations abort with
`InsufficientFunds` and return the store unchanged. -/
theorem insufficient_funds_leaves_no_trace_witness :
    createTransaction paramsC3 dbC3 =
      (Except.error (WalletError.insufficientFunds paramsC3.amount
        (calculateBalance paramsC3.sourceWalletId paramsC3.assetTypeId dbC3)
        (toString paramsC3.assetTypeId)), dbC3) ∧
    createDebitOnlyTransaction 1 10 5 "ADJUSTMENT" "adj_001" none [] dbC3 =
      (Except.error (WalletError.insufficientFunds 5
        (calculateBalance 1 10 dbC3) (toString 10)), dbC3) :=
  have h := insufficient_funds_leaves_no_trace paramsC3 dbC3 1 10 5
    "ADJUSTMENT" "adj_001" none [] dbC3
  ⟨(h.1 ⟨by decide, by decide, by decide⟩).1,
   (h.2 ⟨by decide, by decide, by decide⟩).1⟩

/-- A reference key with the `_credit` suffix differs from the bare key. -/
theorem append_credit_ne (s : String) : s ++ "_credit" ≠ s := by
  intro h
  have h3 : String.length "_credit" = 7 := rfl
  have h2 := congrArg String.length h
  rw [String.length_append, h3] at h2
  omega

/-- The bare key likewise differs from its `_credit`-suffixed variant. -/
theorem append_credit_ne2 (s : String) : s ≠ s ++ "_credit" :=
  fun h => append_credit_ne s h.symm

/-- C4: every write operation checks the reference key first, inside the
atomic unit, and fails fast with `DuplicateTransaction` carrying the key and
the existing entry's transaction id while writing nothing; replaying a
transfer with an identical key surfaces the first call's transaction id in
the duplicate error and the entries exist only once. -/
theorem duplicate_reference_fails_fast
    (p1 : TransactionParams) (dbA : DB) (e1 : LedgerEntry)
    (cw ca : Nat) (camt : Int) (ctt cref : String) (cd : Option String)
    (cm : List (String × String)) (cdb : DB) (ce : LedgerEntry)
    (dw da : Nat) (damt : Int) (dtt dref : String) (dd : Option String)
    (dm : List (String × String)) (ddb : DB) (de : LedgerEntry)
    (params : TransactionParams) (db : DB) (result : TransactionResult)
    (db1 : DB) :
    (findLedgerEntryByReferenceId p1.referenceId dbA = some e1 →
      createTransaction p1 dbA =
        (Except.error (WalletError.duplicateTransaction p1.referenceId
          e1.transaction_id), dbA)) ∧
    (findLedgerEntryByReferenceId cref cdb = some ce →
      createCreditOnlyTransaction cw ca camt ctt cref cd cm cdb =
        (Except.error (WalletError.duplicateTransaction cref
          ce.transaction_id), cdb)) ∧
    (findLedgerEntryByReferenceId dref ddb = some de →
      createDebitOnlyTransaction dw da damt dtt dref dd dm ddb =
        (Except.error (WalletError.duplicateTransaction dref
          de.transaction_id), ddb)) ∧
    ((∀ x ∈ db.ledger_entries,
        x.reference_id ≠ params.referenceId ++ "_credit") →
      createTransaction params db = (Except.ok result, db1) →
      createTransaction params db1 =
        (Except.error (WalletError.duplicateTransaction params.referenceId
          result.transactionId), db1) ∧
      (db1.ledger_entries.filter (fun x =>
        x.reference_id == params.referenceId)).length = 1 ∧
      (db1.ledger_entries.filter (fun x =>
        x.reference_id == params.referenceId ++ "_credit")).length = 1) := by
  refine ⟨?_, ?_, ?_, ?_⟩
  · intro h
    unfold createTransaction withTransaction createTransactionBody
    rw [h]
  · intro h
    unfold createCreditOnlyTransaction withTransaction
      createCreditOnlyTransactionBody
    rw [h]
  · intro h
    unfold createDebitOnlyTransaction withTransaction
      createDebitOnlyTransactionBody
    rw [h]
  · intro hnc hok
    obtain ⟨hfind, htx, hdeb, hcred, hdb2⟩ :=
      createTransaction_ok_inv params db result db1 hok
    have hfind2 : db.ledger_entries.find?
        (fun x => x.reference_id == params.referenceId) = none := hfind
    have hold : ∀ x ∈ db.ledger_entries,
        (x.reference_id == params.referenceId) = false := by
      intro x hx
      have h3 := List.find?_eq_none.mp hfind2 x hx
      simpa using h3
    refine ⟨?_, ?_, ?_⟩
    · rw [hdb2]
      unfold createTransaction withTransaction createTransactionBody
        findLedgerEntryByReferenceId
      dsimp only
      rw [List.find?_append, List.find?_append, hfind2]
      simp [hdeb, htx]
    · rw [hdb2]
      dsimp only
      rw [List.filter_append, List.filter_append,
        List.filter_eq_nil_iff.mpr (fun x hx => by simp [hold x hx])]
      simp [hdeb, hcred, append_credit_ne]
    · rw [hdb2]
      dsimp only
      rw [List.filter_append, List.filter_append,
        List.filter_eq_nil_iff.mpr (fun x hx => by simp [hnc x hx])]
      simp [hdeb, hcred, append_credit_ne2]

/-- Input store for the C4 witness: wallet 1 funded by an entry whose
reference key is `init_001` under transaction id 0. -/
def dbC4 : DB :=
  { wallets := [{ id := 1, account_type := "USER",
                  user_id := some "alice", display_name := "a",
                  is_active := true },
                { id := 2, account_type := "SYSTEM", user_id := none,
                  display_name := "Revenue Account", is_active := true }]
    asset_types := [{ id := 10, code := "GOLD_COINS", name := "Gold Coins",
                      is_active := true }]
    ledger_entries :=
      [{ id := 0, transaction_id := 0, wallet_id := 1, asset_type_id := 10,
         entry_type := EntryType.CREDIT, amount := 100,
         transaction_type := "TOPUP", reference_id := "init_001",
         description := none, metadata := [], created_at := 0 }]
    wallet_balances := [], lockedByOthers := [], nextEntryId := 1,
    nextTxId := 1, now := 5 }

/-- The pre-existing entry of `dbC4`. -/
def initC4 : LedgerEntry :=
  { id := 0, transaction_id := 0, wallet_id := 1, asset_type_id := 10,
    entry_type := EntryType.CREDIT, amount := 100,
    transaction_type := "TOPUP", reference_id := "init_001",
    description := none, metadata := [], created_at := 0 }

/-- Transfer parameters reusing the existing key `init_001`. -/
def paramsC4dup : TransactionParams :=
  { sourceWalletId := 1, targetWalletId := 2, assetTypeId := 10,
    amount := 30, transactionType := "SPEND", referenceId := "init_001",
    description := none, metadata := [] }

/-- Transfer parameters with the fresh key `ref_001` for the replay part. -/
def paramsC4 : TransactionParams :=
  { sourceWalletId := 1, targetWalletId := 2, assetTypeId := 10,
    amount := 30, transactionType := "SPEND", referenceId := "ref_001",
    description := none, metadata := [] }

/-- Result of the first run of the C4 replay. -/
def resC4 : TransactionResult :=
  { transactionId := 1
    debitEntry :=
      { id := 1, transaction_id := 1, wallet_id := 1, asset_type_id := 10,
        entry_type := EntryType.DEBIT, amount := 30,
        transaction_type := "SPEND", reference_id := "ref_001",
        description := none, metadata := [("counterpartyWalletId", "2")],
        created_at := 5 }
    creditEntry :=
      { id := 2, transaction_id := 1, wallet_id := 2, asset_type_id := 10,
        entry_type := EntryType.CREDIT, amount := 30,
        transaction_type := "SPEND", reference_id := "ref_001_credit",
        description := none, metadata := [("counterpartyWalletId", "1")],
        created_at := 5 }
    newBalance := 30 }

/-- Post-run store of the first run of the C4 replay. -/
def dbC4' : DB :=
  { dbC4 with
      ledger_entries :=
        dbC4.ledger_entries ++ [resC4.debitEntry, resC4.creditEntry],
      nextEntryId := 3, nextTxId := 2 }

/-- Witness for C4: all three operations fail fast on the existing key
`init_001`, and replaying a fresh transfer surfaces its transaction id with
the entries present exactly once. -/
theorem duplicate_reference_fails_fast_witness :
    createTransaction paramsC4dup dbC4 =
      (Except.error (WalletError.duplicateTransaction "init_001" 0),
        dbC4) ∧
    createCreditOnlyTransaction 1 10 5 "BONUS" "init_001" none [] dbC4 =
      (Except.error (WalletError.duplicateTransaction "init_001" 0),
        dbC4) ∧
    createDebitOnlyTransaction 1 10 5 "ADJUSTMENT" "init_001" none []
        dbC4 =
      (Except.error (WalletError.duplicateTransaction "init_001" 0),
        dbC4) ∧
    (createTransaction paramsC4 dbC4' =
      (Except.error (WalletError.duplicateTransaction "ref_001" 1),
        dbC4') ∧
     (dbC4'.ledger_entries.filter (fun x =>
       x.reference_id == "ref_001")).length = 1 ∧
     (dbC4'.ledger_entries.filter (fun x =>
       x.reference_id == "ref_001" ++ "_credit")).length = 1) :=
  have h := duplicate_reference_fails_fast paramsC4dup dbC4 initC4
    1 10 5 "BONUS" "init_001" none [] dbC4 initC4
    1 10 5 "ADJUSTMENT" "init_001" none [] dbC4 initC4
    paramsC4 dbC4 resC4 dbC4'
  ⟨h.1 (by decide), h.2.1 (by decide), h.2.2.1 (by decide),
   h.2.2.2 (by decide) (by decide)⟩

/-- Input store for the C6 counterexample: wallet 1 exists, is active, and
its row is currently locked by another in-flight transaction. -/
def dbC6 : DB :=
  { wallets := [{ id := 1, account_type := "USER",
                  user_id := some "alice", display_name := "a",
                  is_active := true }]
    asset_types := [], ledger_entries := [], wallet_balances := [],
    lockedByOthers := [1], nextEntryId := 0, nextTxId := 0, now := 0 }

/-- C6 counterexample: a debit-only operation hitting a locked wallet fails
with the raw storage lock error, not with the service's retryable
`ConcurrencyError` — so the claim that every write operation (transfer,
credit-only, debit-only) surfaces `ConcurrencyError` and never a raw
storage error is false on the code. -/
theorem debitOnly_lock_failure_raw_error :
    (createDebitOnlyTransaction 1 10 5 "ADJUSTMENT" "adj_001" none []
      dbC6).1 =
      Except.error (WalletError.storageLockNotAvailable [1]) ∧
    (createDebitOnlyTransaction 1 10 5 "ADJUSTMENT" "adj_001" none []
      dbC6).1 ≠
      Except.error (WalletError.concurrencyError
        "Unable to acquire wallet locks, please retry") := by
  decide

/-- C6 amended: only the two-sided transfer converts a lock-acquisition
failure into the retryable `ConcurrencyError`; the credit-only and
debit-only operations propagate the underlying storage error unchanged.  In
every case the operation fails immediately (no blocking) and the store is
left unchanged. -/
theorem lock_failure_error_kinds (params : TransactionParams) (db : DB)
    (err : WalletError)
    (cw ca : Nat) (camt : Int) (ctt cref : String) (cd : Option String)
    (cm : List (String × String)) (cdb : DB) (cerr : WalletError)
    (dw da : Nat) (damt : Int) (dtt dref : String) (dd : Option String)
    (dm : List (String × String)) (ddb : DB) (derr : WalletError) :
    (findLedgerEntryByReferenceId params.referenceId db = none →
      lockWalletsInOrder [params.sourceWalletId, params.targetWalletId]
        db = Except.error err →
      createTransaction params db =
        (Except.error (WalletError.concurrencyError
          "Unable to acquire wallet locks, please retry"), db)) ∧
    (findLedgerEntryByReferenceId cref cdb = none →
      lockWalletsInOrder [cw] cdb = Except.error cerr →
      createCreditOnlyTransaction cw ca camt ctt cref cd cm cdb =
        (Except.error cerr, cdb)) ∧
    (findLedgerEntryByReferenceId dref ddb = none →
      lockWalletsInOrder [dw] ddb = Except.error derr →
      createDebitOnlyTransaction dw da damt dtt dref dd dm ddb =
        (Except.error derr, ddb)) := by
  refine ⟨?_, ?_, ?_⟩
  · intro h1 h2
    unfold createTransaction withTransaction createTransactionBody
    rw [h1]
    dsimp only
    rw [h2]
  · intro h1 h2
    unfold createCreditOnlyTransaction withTransaction
      createCreditOnlyTransactionBody
    rw [h1]
    dsimp only
    rw [h2]
  · intro h1 h2
    unfold createDebitOnlyTransaction withTransaction
      createDebitOnlyTransactionBody
    rw [h1]
    dsimp only
    rw [h2]

/-- Transfer parameters for the C6 witness. -/
def paramsC6 : TransactionParams :=
  { sourceWalletId := 1, targetWalletId := 2, assetTypeId := 10,
    amount := 5, transactionType := "SPEND", referenceId := "ref_c6",
    description := none, metadata := [] }

/-- Witness for the amended C6: on the contended store, the transfer
surfaces `ConcurrencyError` while credit-only and debit-only surface the
raw storage lock error. -/
theorem lock_failure_error_kinds_witness :
    createTransaction paramsC6 dbC6 =
      (Except.error (WalletError.concurrencyError
        "Unable to acquire wallet locks, please retry"), dbC6) ∧
    createCreditOnlyTransaction 1 10 5 "BONUS" "bon_c6" none [] dbC6 =
      (Except.error (WalletError.storageLockNotAvailable [1]), dbC6) ∧
    createDebitOnlyTransaction 1 10 5 "ADJUSTMENT" "adj_c6" none []
        dbC6 =
      (Except.error (WalletError.storageLockNotAvailable [1]), dbC6) :=
  have h := lock_failure_error_kinds paramsC6 dbC6
    (WalletError.storageLockNotAvailable [1, 2])
    1 10 5 "BONUS" "bon_c6" none [] dbC6
    (WalletError.storageLockNotAvailable [1])
    1 10 5 "ADJUSTMENT" "adj_c6" none [] dbC6
    (WalletError.storageLockNotAvailable [1])
  ⟨h.1 (by decide) (by decide), h.2.1 (by decide) (by decide),
   h.2.2 (by decide) (by decide)⟩

/-- When no requested active wallet row is locked by another transaction,
`lockWalletsInOrder` succeeds and returns exactly the active matching rows
in ascending id order — regardless of requested ids that are absent or
inactive. -/
theorem lock_ok_of_no_contention (ids : List Nat) (db : DB)
    (hno : ∀ w ∈ db.wallets, w.is_active = true → w.id ∈ ids →
      w.id ∉ db.lockedByOthers) :
    lockWalletsInOrder ids db = Except.ok (List.insertionSort walletLe
      (db.wallets.filter (fun w =>
        (List.insertionSort (· ≤ ·) ids).contains w.id &&
          w.is_active))) := by
  have hany : (List.insertionSort walletLe
      (db.wallets.filter (fun w =>
        (List.insertionSort (· ≤ ·) ids).contains w.id &&
          w.is_active))).any
      (fun w => db.lockedByOthers.contains w.id) = false := by
    rw [List.any_eq_false]
    intro w hw
    have hw2 : w ∈ db.wallets.filter (fun w =>
        (List.insertionSort (· ≤ ·) ids).contains w.id && w.is_active) :=
      ((List.perm_insertionSort walletLe _).mem_iff).mp hw
    obtain ⟨hmem, hcond⟩ := List.mem_filter.mp hw2
    rw [Bool.and_eq_true] at hcond
    have hids : w.id ∈ ids := by
      have h3 : w.id ∈ List.insertionSort (· ≤ ·) ids := by
        simpa using hcond.1
      exact ((List.perm_insertionSort _ ids).mem_iff).mp h3
    have h4 := hno w hmem hcond.2 hids
    simpa using h4
  simp only [lockWalletsInOrder]
  rw [hany]
  simp

/-- Input store for the C10 counterexample: only wallet 1 exists; the
transfer's target id 2 is entirely absent from the `wallets` table. -/
def dbC10x : DB :=
  { wallets := [{ id := 1, account_type := "USER",
                  user_id := some "alice", display_name := "a",
                  is_active := true }]
    asset_types := [{ id := 10, code := "GOLD_COINS", name := "Gold Coins",
                      is_active := true }]
    ledger_entries :=
      [{ id := 0, transaction_id := 0, wallet_id := 1, asset_type_id := 10,
         entry_type := EntryType.CREDIT, amount := 100,
         transaction_type := "TOPUP", reference_id := "init_c10",
         description := none, metadata := [], created_at := 0 }]
    wallet_balances := [], lockedByOthers := [], nextEntryId := 1,
    nextTxId := 1, now := 5 }

/-- Transfer parameters for the C10 counterexample, targeting the absent
wallet id 2. -/
def paramsC10x : TransactionParams :=
  { sourceWalletId := 1, targetWalletId := 2, assetTypeId := 10,
    amount := 30, transactionType := "SPEND", referenceId := "ref_c10x",
    description := none, metadata := [] }

/-- C10 counterexample: with the target wallet id absent — squarely within
the claim's "absent or inactive" scope — the lock step itself still
succeeds (returning the one active row it finds), but the calling ledger
operation does NOT proceed: the CREDIT insert violates the
`ledger_entries.wallet_id` foreign key and the whole transaction aborts
with the raw storage error, leaving the store unchanged. -/
theorem absent_target_insert_aborts :
    lockWalletsInOrder [1, 2] dbC10x =
      Except.ok [{ id := 1, account_type := "USER",
                   user_id := some "alice", display_name := "a",
                   is_active := true }] ∧
    createTransaction paramsC10x dbC10x =
      (Except.error (WalletError.storageConstraintViolation
        "ledger_entries_wallet_id_fkey"), dbC10x) := by
  decide

/-- C10 amended: `lockWalletsInOrder` never fails because a requested
wallet id is absent or inactive — it returns only the active rows it
finds, possibly strictly fewer than requested — and the ledger operation
performs no check on the acquired lock count: a transfer whose wallets
merely EXIST as rows (active or not, locked set complete or not) succeeds.
Only a wallet id with no row at all makes the operation abort, later, at
the insert's foreign key — never at the lock step. -/
theorem lock_partial_acquisition_amended (ids : List Nat) (db : DB)
    (params : TransactionParams) :
    ((∀ w ∈ db.wallets, w.is_active = true → w.id ∈ ids →
        w.id ∉ db.lockedByOthers) →
      lockWalletsInOrder ids db = Except.ok (List.insertionSort walletLe
        (db.wallets.filter (fun w =>
          (List.insertionSort (· ≤ ·) ids).contains w.id &&
            w.is_active)))) ∧
    (findLedgerEntryByReferenceId params.referenceId db = none →
      (∀ x ∈ db.ledger_entries,
        x.reference_id ≠ params.referenceId ++ "_credit") →
      (∀ w ∈ db.wallets, w.is_active = true →
        w.id ∈ [params.sourceWalletId, params.targetWalletId] →
        w.id ∉ db.lockedByOthers) →
      db.wallets.any (fun w => w.id == params.sourceWalletId) = true →
      db.wallets.any (fun w => w.id == params.targetWalletId) = true →
      db.asset_types.any (fun a => a.id == params.assetTypeId) = true →
      ¬ calculateBalance params.sourceWalletId params.assetTypeId db <
        params.amount →
      ∃ result db2,
        createTransaction params db = (Except.ok result, db2)) := by
  constructor
  · exact lock_ok_of_no_contention ids db
  · intro hfind hnc hnocont hsrc htgt hasset hbal
    have hfind2 : db.ledger_entries.find?
        (fun x => x.reference_id == params.referenceId) = none := hfind
    have hold : ∀ x ∈ db.ledger_entries,
        (x.reference_id == params.referenceId) = false := by
      intro x hx
      have h3 := List.find?_eq_none.mp hfind2 x hx
      simpa using h3
    have hu1 : db.ledger_entries.any (fun e =>
        e.reference_id == params.referenceId &&
          e.entry_type == EntryType.DEBIT) = false := by
      rw [List.any_eq_false]
      intro e he
      simp [hold e he]
    have hu2 : (db.ledger_entries ++
        [({ id := db.nextEntryId, transaction_id := db.nextTxId,
            wallet_id := params.sourceWalletId,
            asset_type_id := params.assetTypeId,
            entry_type := EntryType.DEBIT, amount := params.amount,
            transaction_type := params.transactionType,
            reference_id := params.referenceId,
            description := params.description,
            metadata := params.metadata ++
              [("counterpartyWalletId", toString params.targetWalletId)],
            created_at := db.now } : LedgerEntry)]).any (fun e =>
          e.reference_id == params.referenceId ++ "_credit" &&
            e.entry_type == EntryType.CREDIT) = false := by
      rw [List.any_eq_false]
      intro e he
      rcases List.mem_append.mp he with h | h
      · simp [hnc e h]
      · simp at h
        subst h
        simp
    unfold createTransaction withTransaction createTransactionBody
    rw [hfind]
    dsimp only
    rw [lock_ok_of_no_contention
      [params.sourceWalletId, params.targetWalletId] db hnocont]
    dsimp only
    rw [if_neg hbal]
    rw [insertLedgerEntry_ok_of
      { transactionId := db.nextTxId
        walletId := params.sourceWalletId
        assetTypeId := params.assetTypeId
        entryType := EntryType.DEBIT
        amount := params.amount
        transactionType := params.transactionType
        referenceId := params.referenceId
        description := params.description
        metadata := params.metadata ++
          [("counterpartyWalletId", toString params.targetWalletId)] }
      { db with nextTxId := db.nextTxId + 1 } hsrc hasset hu1]
    dsimp only
    rw [insertLedgerEntry_ok_of
      { transactionId := db.nextTxId
        walletId := params.targetWalletId
        assetTypeId := params.assetTypeId
        entryType := EntryType.CREDIT
        amount := params.amount
        transactionType := params.transactionType
        referenceId := params.referenceId ++ "_credit"
        description := params.description
        metadata := params.metadata ++
          [("counterpartyWalletId", toString params.sourceWalletId)] }
      { db with
          ledger_entries := db.ledger_entries ++
            [{ id := db.nextEntryId, transaction_id := db.nextTxId,
               wallet_id := params.sourceWalletId,
               asset_type_id := params.assetTypeId,
               entry_type := EntryType.DEBIT, amount := params.amount,
               transaction_type := params.transactionType,
               reference_id := params.referenceId,
               description := params.description,
               metadata := params.metadata ++
                 [("counterpartyWalletId",
                   toString params.targetWalletId)],
               created_at := db.now }],
          nextEntryId := db.nextEntryId + 1,
          nextTxId := db.nextTxId + 1 } htgt hasset hu2]
    dsimp only
    exact ⟨_, _, rfl⟩

/-- Input store for the C10 witness: wallet 1 is active and funded; wallet
2 — the transfer's target — exists but is INACTIVE, so the lock step
returns only one row. -/
def dbC10 : DB :=
  { wallets := [{ id := 1, account_type := "USER",
                  user_id := some "alice", display_name := "a",
                  is_active := true },
                { id := 2, account_type := "SYSTEM", user_id := none,
                  display_name := "Revenue Account", is_active := false }]
    asset_types := [{ id := 10, code := "GOLD_COINS", name := "Gold Coins",
                      is_active := true }]
    ledger_entries :=
      [{ id := 0, transaction_id := 0, wallet_id := 1, asset_type_id := 10,
         entry_type := EntryType.CREDIT, amount := 100,
         transaction_type := "TOPUP", reference_id := "init_c10",
         description := none, metadata := [], created_at := 0 }]
    wallet_balances := [], lockedByOthers := [], nextEntryId := 1,
    nextTxId := 1, now := 5 }

/-- Transfer parameters for the C10 witness, targeting the inactive
wallet 2. -/
def paramsC10 : TransactionParams :=
  { sourceWalletId := 1, targetWalletId := 2, assetTypeId := 10,
    amount := 30, transactionType := "SPEND", referenceId := "ref_c10",
    description := none, metadata := [] }

/-- Witness for the amended C10: requesting wallets 1 and 2 locks only the
single active row, and the transfer onto the inactive (but present) target
still succeeds. -/
theorem lock_partial_acquisition_amended_witness :
    lockWalletsInOrder [1, 2] dbC10 =
      Except.ok [{ id := 1, account_type := "USER",
                   user_id := some "alice", display_name := "a",
                   is_active := true }] ∧
    (createTransaction paramsC10 dbC10).1.isOk = true := by
  have h := lock_partial_acquisition_amended [1, 2] dbC10 paramsC10
  constructor
  · rw [h.1 (by decide)]
    decide
  · obtain ⟨r, d2, hr⟩ := h.2 (by decide) (by decide) (by decide)
      (by decide) (by decide) (by decide) (by decide)
    rw [hr]
    rfl

/-- Input store for C7: user `user_alice` holds a real-time balance of
105000 GOLD_COINS, and the `wallet_balances` materialized view holds the
matching snapshot 105000 (fresh as of before the spend; no code path
refreshes the view during or after an operation). -/
def dbC7 : DB :=
  { wallets := [{ id := 1, account_type := "USER",
                  user_id := some "user_alice", display_name := "a",
                  is_active := true },
                { id := 2, account_type := "SYSTEM", user_id := none,
                  display_name := "Revenue Account", is_active := true }]
    asset_types := [{ id := 10, code := "GOLD_COINS", name := "Gold Coins",
                      is_active := true }]
    ledger_entries :=
      [{ id := 0, transaction_id := 0, wallet_id := 1, asset_type_id := 10,
         entry_type := EntryType.CREDIT, amount := 105000,
         transaction_type := "TOPUP", reference_id := "topup_001",
         description := none, metadata := [], created_at := 0 }]
    wallet_balances :=
      [{ wallet_id := 1, user_id := some "user_alice", display_name := "a",
         asset_type_id := 10, asset_code := "GOLD_COINS",
         asset_name := "Gold Coins", balance := 105000,
         last_transaction_at := some 0 }]
    lockedByOthers := [], nextEntryId := 1, nextTxId := 1, now := 5 }

/-- The spend of example scenario 2: 2500 GOLD_COINS on balance 105000. -/
def reqC7 : SpendRequest :=
  { user_id := "user_alice", asset_code := "GOLD_COINS", amount := 2500,
    reference_id := "spend_001", item_id := "dragon_skin", metadata := [] }

/-- C7: the claim says a successful spend reports the post-operation
balance, pre-operation real-time balance minus the amount (105000 − 2500 =
102500 in the spec's own example).  Evaluating the code at that exact input:
the spend succeeds and the ledger's real-time balance becomes 102500, but
the operation reports 105000 — the value read back from the materialized
view, which no code path refreshes.  The claim describes the intended
behaviour (the top-up path does return the recomputed balance, and the
repository README states the view is refreshed after transactions); the
spend path's read from the stale view contradicts it. -/
theorem spend_reports_stale_view_balance :
    calculateBalance 1 10 dbC7 = 105000 ∧
    (spend reqC7 dbC7).1 =
      Except.ok { transaction_id := 1, user_id := "user_alice",
                  asset_code := "GOLD_COINS", amount := 2500,
                  balance := 105000, transaction_type := "SPEND" } ∧
    calculateBalance 1 10 (spend reqC7 dbC7).2 = 102500 ∧
    (spend reqC7 dbC7).1 ≠
      Except.ok { transaction_id := 1, user_id := "user_alice",
                  asset_code := "GOLD_COINS", amount := 2500,
                  balance := 102500, transaction_type := "SPEND" } := by
  decide

end DinoWallet
